import Mathlib

/-!
Verification of the supervisory robotic-arm daemon
(`src/actuators/universal_robots/robotic_arm/ur5/applications/snark-ur5-control.cpp`).

Shallow embedding of the parts of the program that the claims are about:
the status reader (`read_status`), the command parser/dispatcher
(`handle` / `process_command`), the home-position monitor
(`home_position_check`), the safety guard (`stop_on_exit`) together with the
arm-stream trace of a control session, and the end-of-cycle reset of the
motion controller's external-input block.

Types declared in headers outside `src/` (the arm status record, the error
code enumeration, the controller input block) are modelled from the spec,
as marked on each such definition.
-/

namespace SnarkUr5

/-! ## Arm status frames (feedback channel) -/

/-- Modelled from the spec: `arm::fixed_status::size`, the statically known
fixed telemetry frame size, declared in a header outside `src/`.  The concrete
byte count is immaterial to every claim; only equality with a frame's declared
length field is ever tested. -/
def fixed_status_size : Nat := 812

/-- Modelled from the spec: the Arm Status record (`arm::status_t`, declared in
a header outside `src/`): a declared length/validity field, a running/mode
flag, and six joint angles (kept in degrees in this model; the source converts
both sides of every comparison to radians, which preserves the comparisons). -/
structure status_t where
  length : Nat
  robot_running : Bool
  joint_angles : List ℚ
  deriving DecidableEq

/-- Modelled from the spec: `status.is_running()`, the running/mode flag of
the Arm Status record. -/
def status_t.is_running (s : status_t) : Bool := s.robot_running

/-- The two fatal errors `read_status` can raise: no status within the wait
(`COMMA_THROW` at line 288) and the length/alignment failure (line 308). -/
inductive read_error
  | status_timeout
  | frame_alignment
  deriving DecidableEq

/-- Line 284: `static const boost::posix_time::milliseconds timeout( 0.1 * 1000000u );`
The argument `0.1 * 1000000u` evaluates to `100000.0`, truncated to the tick
count of `boost::posix_time::milliseconds`, i.e. a wait bound of 100000 ms. -/
def read_status_timeout_ms : Nat := 100000

/-- Condition of the feedback channel during one `read_status` call: either no
frame becomes ready during the wait (`silent`), or the first buffered frame
becomes ready `t` milliseconds after the wait begins, with `rest` the backlog
already buffered behind it. -/
inductive feed_input
  | silent
  | frames (t : Nat) (first : status_t) (rest : List status_t)
  deriving DecidableEq

/-- The frames carried by a `feed_input`. -/
def feed_frames : feed_input → List status_t
  | .silent => []
  | .frames _ f rest => f :: rest

/-- Lines 290-291: `arm_status = *( iss.read() );
while( iss.has_data() ) { arm_status = *( iss.read() ); }` — the net effect of
the drain loop: the last frame of the backlog wins. -/
def drain_backlog {α : Type} (first : α) (rest : List α) : α :=
  rest.foldl (fun _ g => g) first

/-- Lines 280-311, `read_status`: wait on the select for at most the timeout;
if no data is ready, throw (status timeout).  Otherwise decode one frame and
keep decoding while data is buffered, assigning each decoded frame to the
global `arm_status`; afterwards, check the declared length of the frame now
held in `arm_status` against the fixed size and throw (alignment) on mismatch.
`old` is the global `arm_status` before the call; the returned pair is the
global after the call together with the error raised, if any.  Note the
source assigns the global before the length check, and only checks the final
drained frame. -/
def read_status (old : status_t) : feed_input → status_t × Option read_error
  | .silent => (old, some .status_timeout)
  | .frames t f rest =>
    if read_status_timeout_ms < t then (old, some .status_timeout)
    else if (drain_backlog f rest).length ≠ fixed_status_size then
      (drain_backlog f rest, some .frame_alignment)
    else (drain_backlog f rest, none)

/-! ## Command parser / dispatcher -/

/-- The three output channels the daemon writes to: the process standard
output, the robot-arm command stream (`*robot_arm`), and the telemetry
broadcast publisher. -/
inductive sink
  | to_stdout
  | to_arm
  | to_publisher
  deriving DecidableEq

/-- Lines 190-193: `void output( const std::string& msg, std::ostream& os = std::cout )`.
Every call site in `process_command` passes only `msg`, so the default
destination applies. -/
def output_default_sink : sink := .to_stdout

/-- Reply status codes (`arm::errors`, declared in a header outside `src/`;
modelled from the spec: `ok`, `format_error`, `unknown_command`, plus
operation-specific codes carried inside the handler result). -/
inductive error_code
  | from_handler
  | format_error
  | unknown_command
  deriving DecidableEq

/-- The three reply shapes built by `handle` (lines 210-231) and
`process_command` (lines 251-252):
success `'<' + c.serialise() + ',' + handler message + ';'`;
type-conversion failure (caught `boost::bad_lexical_cast`)
`'<' + join(line) + ',' + format_error + ',"command format error, wrong field type/s, fields: names - types: types";'`;
shape/field failure (caught `comma::exception`)
`'<' + join(line) + ',' + format_error + ',"command format error, wrong field/s or field type/s, ...";'`;
unknown operation `join(v) + ',' + unknown_command + ',"unknown command found: token"'`. -/
inductive reply
  | dispatched (serialised : String) (handler_message : String)
  | format_error_types (echo : List String) (names : String) (types : String)
  | format_error_fields (echo : List String) (names : String) (types : String)
  | unknown_command (echo : List String) (token : String)
  deriving DecidableEq

/-- The error code each reply shape carries on the wire. -/
def reply.code : reply → error_code
  | .dispatched _ _ => .from_handler
  | .format_error_types _ _ _ => .format_error
  | .format_error_fields _ _ _ => .format_error
  | .unknown_command _ _ => .unknown_command

/-- Outcome of `C::ascii().get( line )` (line 208), the command-object parsing
layer declared outside `src/`: success (carrying the parsed command's
serialisation `c.serialise()`), a `boost::bad_lexical_cast` (a field failed to
convert to its type), a `comma::exception` (field count/shape mismatch), or
any other fault. -/
inductive parse_outcome
  | ok (serialised : String)
  | bad_lexical_cast
  | comma_exception
  | other_fault
  deriving DecidableEq

/-- Schema metadata of a command type `C`: `c.names()` and `c.serialise()` of
a default-constructed command, interpolated into format-error replies. -/
structure command_meta where
  names : String
  types : String
  deriving DecidableEq

/-- Result of `handle< C >`: a reply string returned to `process_command`
(with a flag recording whether the command was dispatched to the handler), or
an exception propagating out (the `catch( ... ) { COMMA_THROW( ... ) }` arm,
fatal to the session). -/
inductive handle_result
  | reply (r : reply) (handler_invoked : Bool)
  | fatal_exception
  deriving DecidableEq

/-- Lines 202-232, `handle< C >`: parse the line; on `bad_lexical_cast` or
`comma::exception` return a format-error reply built from the default
command's names/types without dispatching; on any other parsing fault rethrow
fatally; on success dispatch to the commands handler and build the success
reply from the parsed command and the handler's result message. -/
def handle (cmd : command_meta) (line : List String) (handler_message : String) :
    parse_outcome → handle_result
  | .ok s => .reply (.dispatched s handler_message) true
  | .bad_lexical_cast => .reply (.format_error_types line cmd.names cmd.types) false
  | .comma_exception => .reply (.format_error_fields line cmd.names cmd.types) false
  | .other_fault => .fatal_exception

/-- `boost::iequals`: case-insensitive string equality (compared here
character by character after lowering, which is what `boost::iequals` does for
the ASCII operation tokens involved). -/
def iequals (a b : String) : Bool :=
  a.data.map Char.toLower == b.data.map Char.toLower

/-- Modelled from the spec: `arm::auto_init_force::fields`, the expected token
count of the force-limited `auto_init` variant (declared outside `src/`; the
concrete value is immaterial to the claims). -/
def auto_init_force_fields : Nat := 4

/-- Ambient data a `process_command` call closes over: the outcome of parsing
the line as the selected command type, the commands handler's result message,
and the per-command schema metadata. -/
structure dispatch_env where
  po : parse_outcome
  handler_message : String
  meta_of : String → command_meta

/-- Observable outcome of one `process_command` call: an out-of-bounds read of
`v[2]` (fewer than three tokens), a reply written to a destination stream
(with the handler-invocation flag), or an exception propagating out. -/
inductive proc_outcome
  | oob_access
  | written (r : reply) (dest : sink) (handler_invoked : Bool)
  | fatal_exception
  deriving DecidableEq

/-- `output( handle< C >( v, os ) )`: the reply returned by `handle` is passed
to `output` with the destination defaulted; a fatal exception from `handle`
propagates. -/
def run_handle (env : dispatch_env) (op_type : String) (v : List String) : proc_outcome :=
  match handle (env.meta_of op_type) v env.handler_message env.po with
  | .reply r h => .written r output_default_sink h
  | .fatal_exception => .fatal_exception

/-- Lines 236-252: the dispatch chain over `v[2]` (already read), matched
case-insensitively; `auto_init` disambiguates on the token count; a token
matching no entry produces the unknown-command reply (echoing the whole line
and the token), written through `output` with the default destination, with no
handler invoked. -/
def dispatch_chain (env : dispatch_env) (v : List String) (op : String) : proc_outcome :=
  if iequals op "move_cam" then run_handle env "move_cam" v
  else if iequals op "set_pos" then run_handle env "set_position" v
  else if iequals op "set_home" then run_handle env "set_home" v
  else if iequals op "power" then run_handle env "power" v
  else if iequals op "brakes" || iequals op "stop" then run_handle env "brakes" v
  else if iequals op "auto_init" then
    (if v.length == auto_init_force_fields then run_handle env "auto_init_force" v
     else run_handle env "auto_init" v)
  else if iequals op "initj" then run_handle env "joint_move" v
  else .written (.unknown_command v op) output_default_sink false

/-- Lines 234-253, `process_command`: reads `v[2]` unconditionally; a vector
with fewer than three tokens makes that read out of bounds.  Otherwise the
dispatch chain runs on the token. -/
def process_command (env : dispatch_env) (v : List String) : proc_outcome :=
  if v.length < 3 then .oob_access
  else dispatch_chain env v (v.getD 2 "")

/-- The operation tokens the dispatch chain recognises (in source order). -/
def is_known_op (op : String) : Bool :=
  iequals op "move_cam" || iequals op "set_pos" || iequals op "set_home" ||
  iequals op "power" || iequals op "brakes" || iequals op "stop" ||
  iequals op "auto_init" || iequals op "initj"

/-! ## Home-position monitor -/

/-- Modelled from the spec: `arm::joints_num`, the number of joints (six),
declared in a header outside `src/`. -/
def joints_num : Nat := 6

/-- Line 348: tolerance of two degrees (this model keeps angles in degrees). -/
def home_epsilon : ℚ := 2

/-- `comma::math::equal( a, b, epsilon )`: absolute-tolerance comparison (from
the external comma library). -/
def math_equal (a b eps : ℚ) : Bool := decide (|a - b| ≤ eps)

/-- Lines 365-368: `for( std::size_t i=0; i<=arm::joints_num; ++i )` — note
`<=`: SEVEN comparisons over six-element containers, breaking at the first
failure.  The comparison at `i = 6` reads past the end of both
`status.joint_angles` and the cached `home_position` vector; `oob` stands for
the result that indeterminate comparison happens to produce.  The loop's net
value is: all six in-range comparisons succeed, and so does the out-of-range
one. -/
def home_check_loop (oob : Bool) (angles home : List ℚ) : Bool :=
  ((List.range joints_num).all
    (fun i => math_equal (angles.getD i 0) (home.getD i 0) home_epsilon)) && oob

/-- Lines 344-373, `home_position_check`: only acts while the status reports
running; then creates (truncate-or-create) the marker file when the check loop
passes and removes it (`fs::remove`, a no-op when absent) otherwise.  When the
status is not running, nothing is touched.  `marker` is whether the marker
file exists before the call; the result is whether it exists after. -/
def home_position_check (oob : Bool) (home : List ℚ) (s : status_t) (marker : Bool) : Bool :=
  if s.is_running then home_check_loop oob s.joint_angles home
  else marker

/-! ## Safety guard and the session's arm-stream trace -/

/-- An event on the robot-arm command stream. -/
inductive arm_event
  | write (s : String)
  | flush
  deriving DecidableEq

/-- Line 322: the conservative stop motion command (fixed low accelerations /
velocities). -/
def stopj_command : String := "stopj([0.1,0.1,0.1,0.1,0.1,0.1])\n"

/-- Lines 323 and 526: the power-off command. -/
def power_off_command : String := "power off\n"

/-- Lines 315-327, `~stop_on_exit()`: write the stop command, write the
power-off command, flush. -/
def stop_on_exit_teardown : List arm_event :=
  [.write stopj_command, .write power_off_command, .flush]

/-- How a control session ends: the loop condition fails because stdin is no
longer good (normal), the loop condition fails because the signal flag was
set by an external interrupt (the flag is polled, so the loop exits normally),
or an exception unwinds out of the loop body (any fatal error). -/
inductive exit_cause
  | normal
  | interrupt
  | fatal_error
  deriving DecidableEq

/-- The arm-stream trace of one control session from the construction of
`stop_on_exit on_exit( *robot_arm )` (line 446) to the end of its scope.
`body` is whatever the loop wrote on the arm stream while running (motion
commands, handler writes).  On normal termination and on an interrupt the
loop exits its condition and lines 526-527 write an explicit early power-off
and flush; a fatal error unwinds straight out.  In every case the guard's
destructor then runs exactly once, appending its teardown. -/
def session_arm_trace (body : List arm_event) : exit_cause → List arm_event
  | .normal => body ++ [.write power_off_command, .flush] ++ stop_on_exit_teardown
  | .interrupt => body ++ [.write power_off_command, .flush] ++ stop_on_exit_teardown
  | .fatal_error => body ++ stop_on_exit_teardown

/-! ## End-of-cycle reset of the controller input block -/

/-- Modelled from the spec: `ExtU_Arm_Controller_T`, the external-input block
of the generated motion controller (declared in a generated header outside
`src/`): the `motion_primitive` inport that `src` writes, plus the remaining
inport signals, opaque here. -/
structure ExtU_Arm_Controller_T where
  motion_primitive : Int
  rest : Fin 8 → Int

/-- The all-zero input block: the result of
`memset( &Arm_Controller_U, 0, sizeof( ExtU_Arm_Controller_T ) )` (line 518). -/
def u_zero : ExtU_Arm_Controller_T := ⟨0, fun _ => 0⟩

/-- Modelled from the spec: `input_primitive::no_action` (declared outside
`src/`; its value is immaterial — the block is zeroed wholesale afterwards). -/
def no_action : Int := 0

/-- Lines 494-518, the tail of one loop iteration acting on
`Arm_Controller_U`: this cycle's dispatched command mutates the block
(`dispatched`), the controller steps, then on a positive command flag the
motion command is sent and `motion_primitive` is set to `no_action` (line
511); on a negative flag a collision warning is logged; finally line 518
unconditionally zeroes the whole block.  The result is the block as the next
cycle's dispatch finds it. -/
def cycle_end_u (u : ExtU_Arm_Controller_T)
    (dispatched : ExtU_Arm_Controller_T → ExtU_Arm_Controller_T)
    (command_flag : Int) : ExtU_Arm_Controller_T :=
  let ud := dispatched u
  let _after_flag :=
    if 0 < command_flag then { ud with motion_primitive := no_action } else ud
  u_zero

/-! ## Concrete sample values used by closed theorems -/

/-- A well-aligned frame, running, parked at the zero configuration. -/
def good_frame : status_t := ⟨fixed_status_size, true, [0, 0, 0, 0, 0, 0]⟩

/-- A second well-aligned frame with distinct joint angles. -/
def good_frame2 : status_t := ⟨fixed_status_size, true, [1, 2, 3, 4, 5, 6]⟩

/-- A frame whose declared length disagrees with the fixed size. -/
def bad_frame : status_t := ⟨7, true, [0, 0, 0, 0, 0, 0]⟩

/-- A prior authoritative status (not running, away from home). -/
def old_frame : status_t := ⟨fixed_status_size, false, [50, 50, 50, 50, 50, 50]⟩

/-- A status reporting not running, away from home. -/
def status_idle : status_t := ⟨fixed_status_size, false, [50, 50, 50, 50, 50, 50]⟩

/-- A status reporting running, at the zero configuration. -/
def status_run : status_t := ⟨fixed_status_size, true, [0, 0, 0, 0, 0, 0]⟩

/-- A configured home position: all six home angles zero degrees. -/
def home_cfg : List ℚ := [0, 0, 0, 0, 0, 0]

/-- A concrete dispatch environment: parsing succeeds, the handler reports
success, schemas are constant. -/
def env0 : dispatch_env :=
  { po := .ok "7,1,set_home"
    handler_message := "0,\"success\""
    meta_of := fun _ => ⟨"fields", "types"⟩ }

/-! ## Helper lemmas -/

/-- Draining a backlog yields a frame of the backlog. -/
theorem drain_backlog_mem {α : Type} (f : α) (rest : List α) :
    drain_backlog f rest ∈ f :: rest := by
  induction rest generalizing f with
  | nil => simp [drain_backlog]
  | cons g gs ih =>
    have h1 : drain_backlog f (g :: gs) = drain_backlog g gs := rfl
    rw [h1]
    exact List.mem_cons_of_mem f (ih g)

/-- Draining a backlog yields exactly its last (freshest) frame. -/
theorem drain_backlog_getLast {α : Type} (f : α) (rest : List α) :
    drain_backlog f rest = (f :: rest).getLast (List.cons_ne_nil f rest) := by
  induction rest generalizing f with
  | nil => rfl
  | cons g gs ih => exact ih g

/-- The check loop passes exactly when all six in-range comparisons are within
tolerance and the out-of-range comparison also succeeds. -/
theorem home_check_loop_iff (oob : Bool) (angles home : List ℚ) :
    home_check_loop oob angles home = true ↔
      ((∀ i, i < joints_num → |angles.getD i 0 - home.getD i 0| ≤ home_epsilon) ∧
        oob = true) := by
  simp [home_check_loop, math_equal, List.all_eq_true, List.mem_range,
    Bool.and_eq_true, decide_eq_true_eq]

/-- `run_handle` never produces the out-of-bounds outcome. -/
theorem run_handle_ne_oob (env : dispatch_env) (op_type : String) (v : List String) :
    run_handle env op_type v ≠ proc_outcome.oob_access := by
  unfold run_handle
  cases handle (env.meta_of op_type) v env.handler_message env.po <;> simp

/-- The dispatch chain never produces the out-of-bounds outcome. -/
theorem dispatch_chain_ne_oob (env : dispatch_env) (v : List String) (op : String) :
    dispatch_chain env v op ≠ proc_outcome.oob_access := by
  unfold dispatch_chain
  repeat' split
  all_goals first
    | exact run_handle_ne_oob _ _ _
    | simp

/-- Whenever `run_handle` writes a reply, the destination is the default one
of `output`. -/
theorem run_handle_dest (env : dispatch_env) (op_type : String) (v : List String)
    (r : reply) (d : sink) (h : Bool)
    (hw : run_handle env op_type v = proc_outcome.written r d h) :
    d = output_default_sink := by
  unfold run_handle at hw
  revert hw
  cases handle (env.meta_of op_type) v env.handler_message env.po with
  | reply r0 h0 =>
    intro hw
    injection hw with h1 h2 h3
    exact h2.symm
  | fatal_exception =>
    intro hw
    exact proc_outcome.noConfusion hw

/-! ## Claim theorems -/

/-- Claim C1 (confirmed): for every control session, however it exits (normal
loop termination, a fatal error unwinding out of the loop, or an external
interrupt), the safety guard's teardown — exactly two writes, the conservative
stop command then the power-off command, followed by a flush — is the final
suffix of the arm-stream trace, and the stop command is written exactly once
in the whole session. -/
theorem C1_safety_teardown (cause : exit_cause) (body : List arm_event)
    (hb : arm_event.write stopj_command ∉ body) :
    stop_on_exit_teardown =
      [arm_event.write stopj_command, arm_event.write power_off_command,
        arm_event.flush] ∧
    (∃ pre, session_arm_trace body cause = pre ++ stop_on_exit_teardown) ∧
    (session_arm_trace body cause).count (arm_event.write stopj_command) = 1 := by
  have hb0 : body.count (arm_event.write stopj_command) = 0 :=
    List.count_eq_zero.mpr hb
  refine ⟨rfl, ?_, ?_⟩
  · cases cause
    · exact ⟨body ++ [arm_event.write power_off_command, arm_event.flush], by
        simp [session_arm_trace]⟩
    · exact ⟨body ++ [arm_event.write power_off_command, arm_event.flush], by
        simp [session_arm_trace]⟩
    · exact ⟨body, rfl⟩
  · cases cause <;>
      simp [session_arm_trace, List.count_append, hb0] <;> decide

/-- Claim C1 witness: a concrete fatal-error session whose loop wrote one
motion command; the stop command appears exactly once on the arm stream. -/
theorem C1_safety_teardown_witness :
    arm_event.write stopj_command ∉
      [arm_event.write "movej([0,0,0,0,0,0],a=0.5,v=0.1)"] ∧
    (session_arm_trace [arm_event.write "movej([0,0,0,0,0,0],a=0.5,v=0.1)"]
        exit_cause.fatal_error).count (arm_event.write stopj_command) = 1 :=
  ⟨by decide,
    (C1_safety_teardown exit_cause.fatal_error
      [arm_event.write "movej([0,0,0,0,0,0],a=0.5,v=0.1)"] (by decide)).2.2⟩

/-- Claim C2 (code bug): the status reader's wait bound as constructed by the
source is 100000 ms (about 100 s), not the approximately 100 ms the claim and
the source's own comment state: a 150 ms silence on the feedback channel is
well inside the wait, so the read succeeds instead of failing with the status
timeout; the timeout fires only when no frame becomes ready at all within the
100000 ms bound. -/
theorem C2_timeout_constant :
    read_status_timeout_ms = 100000 ∧
    read_status old_frame (feed_input.frames 150 good_frame []) =
      (good_frame, none) ∧
    read_status old_frame feed_input.silent =
      (old_frame, some read_error.status_timeout) :=
  ⟨rfl, by decide, rfl⟩

/-- Claim C3 counterexample: an evaluation with the arm not running leaves a
pre-existing marker file in place, so after that evaluation the marker exists
while the latest status is not running — the claimed equivalence fails. -/
theorem C3_counterexample :
    home_position_check true home_cfg status_idle true = true ∧
    status_idle.is_running = false :=
  ⟨rfl, rfl⟩

/-- Claim C3 (corrected): an evaluation with the arm not running leaves the
marker file untouched; an evaluation with the arm running leaves the marker
present exactly when all six joint angles are within the two-degree tolerance
of the configured home AND the additional out-of-range seventh comparison
performed by the off-by-one check loop succeeds (removal when the loop fails
covers the absent-marker no-op: the state simply becomes absent). -/
theorem C3_marker_amended (oob : Bool) (home : List ℚ) (s : status_t) (marker : Bool) :
    (s.is_running = false → home_position_check oob home s marker = marker) ∧
    (s.is_running = true →
      (home_position_check oob home s marker = true ↔
        ((∀ i, i < joints_num → |s.joint_angles.getD i 0 - home.getD i 0| ≤ home_epsilon) ∧
          oob = true))) := by
  constructor
  · intro h
    simp [home_position_check, h]
  · intro h
    simp only [home_position_check, h, if_true]
    exact home_check_loop_iff oob s.joint_angles home

/-- Claim C3 witness: a running status at the configured home with a
favourable out-of-range comparison creates the marker. -/
theorem C3_marker_amended_witness :
    status_run.is_running = true ∧
    home_position_check true home_cfg status_run false = true :=
  ⟨rfl, ((C3_marker_amended true home_cfg status_run false).2 rfl).mpr
    ⟨by
      intro i hi
      simp only [joints_num] at hi
      interval_cases i <;> norm_num [status_run, home_cfg, home_epsilon], rfl⟩⟩

/-- Claim C4 counterexample: a misaligned frame followed by a well-aligned
frame in the backlog is decoded and discarded without any length validation —
the read succeeds with no error, contradicting the claim that any decoded
frame with a bad declared length causes a fatal frame-alignment error. -/
theorem C4_counterexample :
    bad_frame.length ≠ fixed_status_size ∧
    read_status old_frame (feed_input.frames 0 bad_frame [good_frame]) =
      (good_frame, none) := by
  constructor
  · decide
  · decide

/-- Claim C4 (corrected): the authoritative status is only ever replaced by a
whole decoded frame (never a partial mix — after any read it is either the old
copy or one of the input frames); but only the final frame of the drained
backlog is length-validated: the frame-alignment error fires exactly when that
final frame's declared length mismatches, and when it fires the offending
frame has already been assigned to the authoritative status. -/
theorem C4_status_amended (old : status_t) (fi : feed_input) :
    ((read_status old fi).1 = old ∨ (read_status old fi).1 ∈ feed_frames fi) ∧
    ((read_status old fi).2 = some read_error.frame_alignment ↔
      (∃ t f rest, fi = feed_input.frames t f rest ∧ t ≤ read_status_timeout_ms ∧
        (drain_backlog f rest).length ≠ fixed_status_size)) ∧
    ((read_status old fi).2 = some read_error.frame_alignment →
      (read_status old fi).1.length ≠ fixed_status_size) := by
  cases fi with
  | silent =>
    refine ⟨Or.inl rfl, ⟨?_, ?_⟩, ?_⟩
    · intro h
      exact absurd h (by simp [read_status])
    · rintro ⟨t, f, rest, heq, -, -⟩
      exact absurd heq (by simp)
    · intro h
      exact absurd h (by simp [read_status])
  | frames t f rest =>
    by_cases ht : read_status_timeout_ms < t
    · have hr : read_status old (feed_input.frames t f rest) =
          (old, some read_error.status_timeout) := by
        simp [read_status, ht]
      rw [hr]
      refine ⟨Or.inl rfl, ⟨?_, ?_⟩, ?_⟩
      · intro h
        exact absurd h (by simp)
      · rintro ⟨t2, f2, r2, heq, hle, -⟩
        injection heq with e1 e2 e3
        omega
      · intro h
        exact absurd h (by simp)
    · by_cases hl : (drain_backlog f rest).length ≠ fixed_status_size
      · have hr : read_status old (feed_input.frames t f rest) =
            (drain_backlog f rest, some read_error.frame_alignment) := by
          simp only [read_status, if_neg ht, if_pos hl]
        rw [hr]
        exact ⟨Or.inr (drain_backlog_mem f rest),
          ⟨fun _ => ⟨t, f, rest, rfl, by omega, hl⟩, fun _ => rfl⟩,
          fun _ => hl⟩
      · have hr : read_status old (feed_input.frames t f rest) =
            (drain_backlog f rest, none) := by
          simp only [read_status, if_neg ht, if_neg hl]
        rw [hr]
        refine ⟨Or.inr (drain_backlog_mem f rest), ⟨?_, ?_⟩, ?_⟩
        · intro h
          exact absurd h (by simp)
        · rintro ⟨t2, f2, r2, heq, -, hll⟩
          injection heq with e1 e2 e3
          subst e2
          subst e3
          exact absurd hll hl
        · intro h
          exact absurd h (by simp)

/-- Claim C4 witness: a single misaligned frame raises the frame-alignment
error, and by then the misaligned frame is already the authoritative status. -/
theorem C4_status_amended_witness :
    (read_status old_frame (feed_input.frames 0 bad_frame [])).2 =
      some read_error.frame_alignment ∧
    (read_status old_frame (feed_input.frames 0 bad_frame [])).1.length ≠
      fixed_status_size :=
  ⟨by decide,
    (C4_status_amended old_frame (feed_input.frames 0 bad_frame [])).2.2 (by decide)⟩

/-- Claim C5 (confirmed): when data is ready within the wait, the reader's
result is the same as if the backlog had contained only its last frame (older
buffered frames are discarded without any further processing), and on a
successful read the authoritative status holds exactly that last (freshest)
frame of the backlog. -/
theorem C5_freshest (old f : status_t) (rest : List status_t) (t : Nat)
    (ht : t ≤ read_status_timeout_ms) :
    read_status old (feed_input.frames t f rest) =
      read_status old (feed_input.frames t (drain_backlog f rest) []) ∧
    ((drain_backlog f rest).length = fixed_status_size →
      read_status old (feed_input.frames t f rest) = (drain_backlog f rest, none)) ∧
    drain_backlog f rest = (f :: rest).getLast (List.cons_ne_nil f rest) := by
  have hnt : ¬ read_status_timeout_ms < t := by omega
  refine ⟨?_, ?_, drain_backlog_getLast f rest⟩
  · simp only [read_status, if_neg hnt]
    rfl
  · intro hlen
    simp only [read_status, if_neg hnt, hlen]
    simp

/-- Claim C5 witness: a two-frame backlog; the read succeeds holding the
second (freshest) frame. -/
theorem C5_freshest_witness :
    read_status old_frame (feed_input.frames 0 good_frame [good_frame2]) =
      (good_frame2, none) :=
  (C5_freshest old_frame good_frame [good_frame2] 0 (by decide)).2.1 (by decide)

/-- Claim C6 (confirmed): any line of at least three tokens whose operation
token (position 2, matched case-insensitively) names no operation of the
dispatch table gets a non-fatal unknown-command reply that echoes the whole
line and names the offending token, written through `output`'s default
destination, with no handler invoked (so no side effect reaches the arm). -/
theorem C6_unknown_command (env : dispatch_env) (v : List String)
    (h3 : 3 ≤ v.length) (hop : is_known_op (v.getD 2 "") = false) :
    process_command env v =
      proc_outcome.written (reply.unknown_command v (v.getD 2 "")) sink.to_stdout
        false ∧
    (reply.unknown_command v (v.getD 2 "")).code = error_code.unknown_command := by
  refine ⟨?_, rfl⟩
  have hlt : ¬ v.length < 3 := by omega
  simp only [is_known_op, Bool.or_eq_false_iff] at hop
  obtain ⟨⟨⟨⟨⟨⟨⟨h1, h2⟩, hh3⟩, h4⟩, h5⟩, h6⟩, h7⟩, h8⟩ := hop
  simp only [process_command, if_neg hlt, dispatch_chain, h1, h2, hh3, h4, h5, h6,
    h7, h8, Bool.or_self, Bool.false_eq_true, if_false, output_default_sink]

/-- Claim C6 witness: the token `bogus_op` is not in the table; the reply
echoes the line and the token, no handler runs. -/
theorem C6_unknown_command_witness :
    process_command env0 ["7", "2", "bogus_op"] =
      proc_outcome.written
        (reply.unknown_command ["7", "2", "bogus_op"] "bogus_op")
        sink.to_stdout false :=
  (C6_unknown_command env0 ["7", "2", "bogus_op"] (by decide) (by decide)).1

/-- Claim C7 (confirmed): for a recognised operation, a field that fails to
convert to its type (`boost::bad_lexical_cast`) or a field-count/shape
mismatch (`comma::exception`) is non-fatal and yields a structured
format-error reply carrying the expected field names and types, without the
handler being invoked; any other parsing fault is rethrown as a fatal
programming-level error; a successful parse is dispatched to the handler. -/
theorem C7_parse_error_handling (cmd : command_meta) (line : List String)
    (msg : String) :
    handle cmd line msg parse_outcome.bad_lexical_cast =
      handle_result.reply (reply.format_error_types line cmd.names cmd.types) false ∧
    (reply.format_error_types line cmd.names cmd.types).code =
      error_code.format_error ∧
    handle cmd line msg parse_outcome.comma_exception =
      handle_result.reply (reply.format_error_fields line cmd.names cmd.types) false ∧
    (reply.format_error_fields line cmd.names cmd.types).code =
      error_code.format_error ∧
    handle cmd line msg parse_outcome.other_fault = handle_result.fatal_exception ∧
    (∀ s, handle cmd line msg (parse_outcome.ok s) =
      handle_result.reply (reply.dispatched s msg) true) :=
  ⟨rfl, rfl, rfl, rfl, rfl, fun _ => rfl⟩

/-- Claim C8 counterexample: a successfully dispatched command's reply is
written to the process standard output (the default destination of `output`),
not to the robot-arm command stream the claim names. -/
theorem C8_counterexample :
    process_command env0 ["7", "1", "set_home"] =
      proc_outcome.written (reply.dispatched "7,1,set_home" "0,\"success\"")
        sink.to_stdout true ∧
    sink.to_stdout ≠ sink.to_arm :=
  ⟨rfl, by decide⟩

/-- Claim C8 (corrected): every dispatch reply line — successful dispatch,
parse failure, or unknown command — is written to the process standard output
(the default `os = std::cout` of `output`, since every call site passes only
the message), and therefore neither to the robot-arm command stream nor to
the telemetry broadcast channel. -/
theorem C8_reply_sink_amended (env : dispatch_env) (v : List String) (r : reply)
    (d : sink) (h : Bool)
    (hw : process_command env v = proc_outcome.written r d h) :
    d = sink.to_stdout ∧ d ≠ sink.to_arm ∧ d ≠ sink.to_publisher := by
  have hd : d = output_default_sink := by
    unfold process_command at hw
    by_cases hlen : v.length < 3
    · rw [if_pos hlen] at hw
      exact absurd hw (by simp)
    · rw [if_neg hlen] at hw
      unfold dispatch_chain at hw
      repeat' split at hw
      all_goals first
        | exact run_handle_dest _ _ _ _ _ _ hw
        | (injection hw with e1 e2 e3; exact e2.symm)
  subst hd
  exact ⟨rfl, by decide, by decide⟩

/-- Claim C8 witness: instantiating the corrected statement on a concrete
dispatched command. -/
theorem C8_reply_sink_amended_witness :
    sink.to_stdout = sink.to_stdout ∧ sink.to_stdout ≠ sink.to_arm ∧
    sink.to_stdout ≠ sink.to_publisher :=
  C8_reply_sink_amended env0 ["7", "1", "set_home"]
    (reply.dispatched "7,1,set_home" "0,\"success\"") sink.to_stdout true rfl

/-- Claim C9 (confirmed): `process_command` reads the token at position 2
unconditionally, so the out-of-bounds outcome occurs exactly for the input
lines that split into fewer than three tokens — every dispatch path
presupposes at least three tokens. -/
theorem C9_token_oob (env : dispatch_env) (v : List String) :
    process_command env v = proc_outcome.oob_access ↔ v.length < 3 := by
  constructor
  · intro h
    by_contra hlen
    unfold process_command at h
    rw [if_neg hlen] at h
    exact dispatch_chain_ne_oob env v (v.getD 2 "") h
  · intro h
    unfold process_command
    rw [if_pos h]

/-- Claim C9 witness: a two-token line reaches the out-of-bounds branch. -/
theorem C9_token_oob_witness :
    process_command env0 ["7", "1"] = proc_outcome.oob_access :=
  (C9_token_oob env0 ["7", "1"]).mpr (by decide)

/-- Claim C10 (confirmed): at the end of every control-loop cycle the entire
external-input block of the motion controller is the all-zero block —
regardless of this cycle's dispatched intent and of whether the command flag
was positive (command sent), negative (rejected as collision-unsafe) or zero
(no command) — so the block the next cycle starts from never depends on any
earlier cycle's dispatched intent. -/
theorem C10_input_block_reset (u : ExtU_Arm_Controller_T)
    (dispatched : ExtU_Arm_Controller_T → ExtU_Arm_Controller_T)
    (command_flag : Int) :
    cycle_end_u u dispatched command_flag = u_zero ∧
    (cycle_end_u u dispatched command_flag).motion_primitive = 0 ∧
    (∀ i, (cycle_end_u u dispatched command_flag).rest i = 0) ∧
    (∀ (u2 : ExtU_Arm_Controller_T)
        (d2 : ExtU_Arm_Controller_T → ExtU_Arm_Controller_T) (flag2 : Int),
      cycle_end_u u dispatched command_flag = cycle_end_u u2 d2 flag2) :=
  ⟨rfl, rfl, fun _ => rfl, fun _ _ _ => rfl⟩

end SnarkUr5
